import Mathlib

/-!
# Verification of `src/in_progress/new_web.py`

A shallow embedding of the single-file static HTTP server. Pure string
helpers mirror the Python 2 string primitives used by the source
(`str.split`, `str.partition`, `str.strip`, `str.lower`,
`os.path.splitext`), and `handle` models the body of the `while True`
loop in `main` for one request: it returns either the exact string
passed to `connection.sendall`, together with the updated loop-local
state (the `cookies` variable and the `REQUESTS` counter) and the
diagnostic `print` output, or the unhandled Python exception the
iteration raises.
-/

set_option autoImplicit false

namespace NewWeb

/-- The whitespace characters of Python's `str.split()` / `str.strip()`. -/
def pyIsSpace (c : Char) : Bool :=
  c = ' ' || c = '\t' || c = '\n' || c = '\r' || c = '\x0b' || c = '\x0c'

/-- Python `str.strip()`: drop leading and trailing whitespace. -/
def pyStrip (s : String) : String :=
  String.mk (((s.data.dropWhile pyIsSpace).reverse.dropWhile pyIsSpace).reverse)

/-- Split a character list at every character satisfying `p`, keeping
empty groups (the grouping underlying Python's `str.split(sep)`). -/
def splitOnPred (p : Char → Bool) : List Char → List (List Char)
  | [] => [[]]
  | c :: cs =>
    match splitOnPred p cs with
    | [] => [[]]
    | g :: gs => if p c then [] :: g :: gs else (c :: g) :: gs

/-- Python `str.split(sep)` for a one-character separator. -/
def pySplitChar (s : String) (sep : Char) : List String :=
  (splitOnPred (fun c => c = sep) s.data).map String.mk

/-- Python `str.split()` with no argument: split on whitespace runs,
discarding empty pieces. -/
def pySplitWs (s : String) : List String :=
  ((splitOnPred pyIsSpace s.data).filter (fun g => g ≠ [])).map String.mk

/-- Python `str.partition(sep)` for a one-character separator, returning
the part before the first occurrence of `sep` and the part after it
(when `sep` does not occur the whole string is the first component). -/
def pyPartition (s : String) (sep : Char) : String × String :=
  match splitOnPred (fun c => c = sep) s.data with
  | [] => (s, "")
  | [a] => (String.mk a, "")
  | a :: rest => (String.mk a, String.mk (List.intercalate [sep] rest))

/-- Python `str.lower()` (ASCII, as the source's header names use). -/
def pyLower (s : String) : String :=
  String.mk (s.data.map Char.toLower)

/-- Python `str.rfind(c)`: index of the last occurrence of `c`, `-1` if absent. -/
def pyRfind (s : String) (c : Char) : Int :=
  let rec go : List Char → Int → Int → Int
    | [], _, best => best
    | x :: xs, i, best => go xs (i + 1) (if x = c then i else best)
  go s.data 0 (-1)

/-- `os.path.splitext` (posixpath): split off the extension at the last
dot that comes after the last `/` and after at least one non-dot
character of the file name. -/
def splitext (p : String) : String × String :=
  let sepIndex := pyRfind p '/'
  let dotIndex := pyRfind p '.'
  if sepIndex < dotIndex then
    let d := dotIndex.toNat
    let start := (sepIndex + 1).toNat
    if ((List.range d).drop start).any (fun j => p.data.getD j ' ' ≠ '.') then
      (String.mk (p.data.take d), String.mk (p.data.drop d))
    else (p, "")
  else (p, "")

/-- The extension the server extracts from a resolved path:
`os.path.splitext(path)[1][1:]` (line 63 of the source). -/
def extOf (path : String) : String := ((splitext path).2).drop 1

/-- Header / cookie dictionaries: Python `dict` with string keys and values,
modelled as an association list with unique keys. -/
abbrev Dict := List (String × String)

/-- Python `dict` assignment `d[k] = v`: replace the binding of `k`
if present, otherwise append it. -/
def dinsert (d : Dict) (k v : String) : Dict :=
  if d.any (fun p => p.1 = k) then
    d.map (fun p => if p.1 = k then (k, v) else p)
  else d ++ [(k, v)]

/-- Python `d[k]` / `k in d` combined: the value bound to `k`, if any. -/
def hlookup (d : Dict) (k : String) : Option String :=
  (d.find? (fun p => p.1 = k)).map (fun p => p.2)

/-- The loop body of `parse_headers`: consume header lines until the
blank line (a line that is exactly `"\r"`), splitting each on the first
colon, lower-casing the key and stripping the value. -/
def parseHeaderLines : List String → Dict → Dict
  | [], d => d
  | line :: rest, d =>
    if line = "\r" then d
    else
      let pieces := pyPartition line ':'
      parseHeaderLines rest (dinsert d (pyLower pieces.1) (pyStrip pieces.2))

/-- `parse_headers` (lines 18–28): dictionary of the headers of a raw request. -/
def parse_headers (request : String) : Dict :=
  parseHeaderLines ((pySplitChar request '\n').drop 1) []

/-- Python substring membership `needle in hay`. -/
def strContains (hay needle : String) : Bool :=
  decide (needle.data <:+: hay.data)

/-- `is_content_type_negotiable` (lines 30–36):
`extension in accepts or accepts == '*/*'`. -/
def is_content_type_negotiable (accepts extension : String) : Bool :=
  strContains accepts extension || accepts == "*/*"

/-- The unhandled Python exceptions a loop iteration of `main` can raise. -/
inductive Fault where
  /-- `IndexError`: a cookie entry without `=` in the comprehension of line 58. -/
  | cookieIndexError : Fault
  /-- `NameError`: `print cookies` (line 59) with `cookies` never assigned. -/
  | nameErrorCookies : Fault
  /-- `ValueError`: the start line does not unpack into three names (line 61). -/
  | valueErrorStartLine : Fault
  /-- `KeyError`: `headers['user-agent']` (line 65) with the header absent. -/
  | keyErrorUserAgent : Fault
deriving DecidableEq, Repr

/-- The cookie dictionary comprehension of line 58:
`{e.split('=')[0]: e.split('=')[1] for e in value.split(';')}`.
Each entry is split on every `=`; the key is the part before the first
`=` and the value is the part between the first and the second `=`
(an entry without `=` raises `IndexError`). -/
def parseCookies (value : String) : Except Fault Dict :=
  let rec go : List String → Dict → Except Fault Dict
    | [], d => Except.ok d
    | e :: rest, d =>
      match pySplitChar e '=' with
      | k :: v :: _ => go rest (dinsert d k v)
      | _ => Except.error Fault.cookieIndexError
  go (pySplitChar value ';') []

/-- The cookie parsing as the specification words it (for comparison with
`parseCookies`, which follows the source): split the header value on `;`,
split each entry on the first `=`, and map the cookie name to the raw
remainder of the entry as its value. -/
def parseCookiesClaimed (value : String) : Dict :=
  (pySplitChar value ';').foldl
    (fun d e => dinsert d (pyPartition e '=').1 (pyPartition e '=').2) []

/-- Lines 57–59 of `main`: rebuild the `cookies` variable when the
request has a `cookie` header, otherwise keep the value left over from
an earlier iteration; `print cookies` raises `NameError` when the
variable was never assigned. -/
def cookieStep (headers : Dict) (cookies0 : Option Dict) : Except Fault Dict :=
  match hlookup headers "cookie" with
  | some cv => parseCookies cv
  | none =>
    match cookies0 with
    | some d => Except.ok d
    | none => Except.error Fault.nameErrorCookies

/-- The bare `406` status line sent on line 68. -/
def resp406 : String := "HTTP/1.1 406 Not Acceptable\n"

/-- The bare `404` status line sent on line 70. -/
def resp404 : String := "HTTP/1.1 404 Not Found\n"

/-- `RESPONSE_TEMPLATE.format(headers='Content-Length: …', content=…)`
(lines 8–11 and 75): the success response for file contents. -/
def response_200 (contents : String) : String :=
  "HTTP/1.1 200 OK\nContent-Length: " ++ toString contents.length ++ "\n\n" ++ contents

/-- Lines 66–76 of `main`: choose among the three responses, reading the
filesystem only at the resolved path. `fs` maps a path to the contents
of the file there, `none` when `os.path.exists` is false. -/
def dispatch (headers : Dict) (extension : String) (fs : String → Option String)
    (path : String) : String :=
  match hlookup headers "accept" with
  | none => resp406
  | some acc =>
    if is_content_type_negotiable acc extension then
      match fs path with
      | none => resp404
      | some contents => response_200 contents
    else resp406

/-- The whitespace tokens of the first line of the raw request
(`request.split('\n')[0].split()`, lines 60–61). -/
def startTokens (request : String) : List String :=
  pySplitWs ((pySplitChar request '\n').headD "")

/-- One iteration of the `while True` loop of `main` (lines 51–77) after
`recv`: parse, negotiate and answer one request. Returns the exact
string passed to `connection.sendall`, the new value of the loop-local
`cookies` variable, the new `REQUESTS` counter and the `print` output —
or the unhandled exception the iteration raises. -/
def handle (root : String) (fs : String → Option String) (cookies0 : Option Dict)
    (count : Nat) (request : String) :
    Except Fault (String × Option Dict × Nat × List String) :=
  let headers := parse_headers request
  match cookieStep headers cookies0 with
  | Except.error f => Except.error f
  | Except.ok cookies =>
    match startTokens request with
    | [_method, uri, _version] =>
      let path := root ++ uri
      let extension := extOf path
      match hlookup headers "user-agent" with
      | none => Except.error Fault.keyErrorUserAgent
      | some ua =>
        Except.ok (dispatch headers extension fs path, some cookies, count + 1,
          [toString (count + 1), toString cookies, toString headers, ua])
    | _ => Except.error Fault.valueErrorStartLine

/-- The response component of a loop iteration, forgetting state and
diagnostics. -/
def respOf (r : Except Fault (String × Option Dict × Nat × List String)) :
    Except Fault String :=
  match r with
  | Except.error f => Except.error f
  | Except.ok (resp, _) => Except.ok resp

/-! ## Helper lemmas -/

/-- A success response is never the bare `406` status line: it is strictly
longer than it. -/
theorem response_200_ne_resp406 (c : String) : response_200 c ≠ resp406 := by
  intro h
  have hlen := congrArg String.length h
  simp only [response_200, resp406, String.length_append] at hlen
  rw [show ("HTTP/1.1 200 OK\nContent-Length: " : String).length = 32 from rfl,
    show ("\n\n" : String).length = 2 from rfl,
    show ("HTTP/1.1 406 Not Acceptable\n" : String).length = 28 from rfl] at hlen
  omega

/-- A success response is never the bare `404` status line. -/
theorem response_200_ne_resp404 (c : String) : response_200 c ≠ resp404 := by
  intro h
  have hlen := congrArg String.length h
  simp only [response_200, resp404, String.length_append] at hlen
  rw [show ("HTTP/1.1 200 OK\nContent-Length: " : String).length = 32 from rfl,
    show ("\n\n" : String).length = 2 from rfl,
    show ("HTTP/1.1 404 Not Found\n" : String).length = 23 from rfl] at hlen
  omega

theorem resp404_ne_resp406 : resp404 ≠ resp406 := by decide

/-- When parsing and the unconditional header reads succeed, `handle`
reaches the dispatcher. -/
theorem handle_ok_of (root : String) (fs : String → Option String) (c0 : Option Dict)
    (n : Nat) (req m uri vv ua : String) (d : Dict)
    (hcs : cookieStep (parse_headers req) c0 = Except.ok d)
    (htok : startTokens req = [m, uri, vv])
    (hua : hlookup (parse_headers req) "user-agent" = some ua) :
    handle root fs c0 n req = Except.ok
      (dispatch (parse_headers req) (extOf (root ++ uri)) fs (root ++ uri), some d, n + 1,
        [toString (n + 1), toString d, toString (parse_headers req), ua]) := by
  simp only [handle, hcs, htok, hua]

/-- Inversion: a successful iteration determines every intermediate step. -/
theorem handle_ok_cases {root : String} {fs : String → Option String} {c0 : Option Dict}
    {n : Nat} {req resp : String} {ck : Option Dict} {n' : Nat} {out : List String}
    (h : handle root fs c0 n req = Except.ok (resp, ck, n', out)) :
    ∃ d m uri vv ua, cookieStep (parse_headers req) c0 = Except.ok d ∧
      startTokens req = [m, uri, vv] ∧
      hlookup (parse_headers req) "user-agent" = some ua ∧
      resp = dispatch (parse_headers req) (extOf (root ++ uri)) fs (root ++ uri) ∧
      ck = some d ∧ n' = n + 1 := by
  simp only [handle] at h
  cases hcs : cookieStep (parse_headers req) c0 with
  | error f => rw [hcs] at h; exact absurd h (by simp)
  | ok d =>
    rw [hcs] at h
    rcases htok : startTokens req with _ | ⟨m, _ | ⟨uri, _ | ⟨vv, _ | ⟨w, rest⟩⟩⟩⟩ <;>
      rw [htok] at h
    case cons.cons.cons.nil =>
      cases hua : hlookup (parse_headers req) "user-agent" with
      | none => rw [hua] at h; exact absurd h (by simp)
      | some ua =>
        rw [hua] at h
        simp only [Except.ok.injEq, Prod.mk.injEq] at h
        exact ⟨d, m, uri, vv, ua, rfl, rfl, rfl, h.1.symm, h.2.1.symm, h.2.2.1.symm⟩
    all_goals exact absurd h (by simp)

/-- The dispatcher produces one of exactly three response strings. -/
theorem dispatch_cases (hdrs : Dict) (ext : String) (fs : String → Option String)
    (path : String) :
    dispatch hdrs ext fs path = resp404 ∨ dispatch hdrs ext fs path = resp406 ∨
      ∃ c, dispatch hdrs ext fs path = response_200 c := by
  rcases hacc : hlookup hdrs "accept" with _ | acc
  · exact Or.inr (Or.inl (by simp [dispatch, hacc]))
  · rcases hn : is_content_type_negotiable acc ext with _ | _
    · exact Or.inr (Or.inl (by simp [dispatch, hacc, hn]))
    · rcases hfs : fs path with _ | c
      · exact Or.inl (by simp [dispatch, hacc, hn, hfs])
      · exact Or.inr (Or.inr ⟨c, by simp [dispatch, hacc, hn, hfs]⟩)

/-- The dispatcher answers `406` exactly when no present `Accept` value
negotiates. -/
theorem dispatch_eq_resp406_iff (hdrs : Dict) (ext : String) (fs : String → Option String)
    (path : String) :
    dispatch hdrs ext fs path = resp406 ↔
      (∀ acc, hlookup hdrs "accept" = some acc →
        is_content_type_negotiable acc ext = false) := by
  rcases hacc : hlookup hdrs "accept" with _ | acc
  · have hd : dispatch hdrs ext fs path = resp406 := by simp [dispatch, hacc]
    rw [hd]
    exact ⟨fun _ acc' h' => absurd h' (fun hh => by cases hh), fun _ => rfl⟩
  · rcases hn : is_content_type_negotiable acc ext with _ | _
    · have hd : dispatch hdrs ext fs path = resp406 := by simp [dispatch, hacc, hn]
      rw [hd]
      refine ⟨fun _ acc' h' => ?_, fun _ => rfl⟩
      cases h'
      exact hn
    · have hd : ∃ c, dispatch hdrs ext fs path = resp404 ∨
          dispatch hdrs ext fs path = response_200 c := by
        rcases hfs : fs path with _ | c
        · exact ⟨"", Or.inl (by simp [dispatch, hacc, hn, hfs])⟩
        · exact ⟨c, Or.inr (by simp [dispatch, hacc, hn, hfs])⟩
      obtain ⟨c, hd⟩ := hd
      constructor
      · intro h
        rcases hd with hd | hd <;> rw [hd] at h
        · exact absurd h resp404_ne_resp406
        · exact absurd h (response_200_ne_resp406 c)
      · intro hall
        have := hall acc rfl
        rw [hn] at this
        exact absurd this (by simp)

/-- The dispatcher reads the filesystem only at the resolved path. -/
theorem dispatch_congr_fs (hdrs : Dict) (ext : String) (fs fs' : String → Option String)
    (path : String) (h : fs path = fs' path) :
    dispatch hdrs ext fs path = dispatch hdrs ext fs' path := by
  unfold dispatch
  rw [h]

/-- Re-running the cookie step from the state it produced succeeds with the
same dictionary. -/
theorem cookieStep_idem (hdrs : Dict) (c0 : Option Dict) (d : Dict)
    (h : cookieStep hdrs c0 = Except.ok d) : cookieStep hdrs (some d) = Except.ok d := by
  unfold cookieStep at h ⊢
  rcases hck : hlookup hdrs "cookie" with _ | cv
  · rfl
  · rw [hck] at h
    exact h

/-! ## Claims -/

/-- **C1.** For every well-formed request (three start-line tokens, the
unconditionally read `user-agent` header present, cookie handling not
faulting) whose `Accept` header is present and acceptable and whose
resolved path names an existing file, the server responds `200 OK` with a
`Content-Length` equal to the exact byte length of the file's contents and
a body equal to those bytes verbatim. The empty-file boundary case is the
witness: a 0-byte file yields `Content-Length: 0` and an empty body. -/
theorem c1_ok200_exact_content (root : String) (fs : String → Option String)
    (c0 : Option Dict) (n : Nat) (req m uri vv ua acc contents : String) (d : Dict)
    (htok : startTokens req = [m, uri, vv])
    (hcs : cookieStep (parse_headers req) c0 = Except.ok d)
    (hua : hlookup (parse_headers req) "user-agent" = some ua)
    (hacc : hlookup (parse_headers req) "accept" = some acc)
    (hneg : is_content_type_negotiable acc (extOf (root ++ uri)) = true)
    (hfs : fs (root ++ uri) = some contents) :
    ∃ out, handle root fs c0 n req = Except.ok
      ("HTTP/1.1 200 OK\nContent-Length: " ++ toString contents.length ++ "\n\n" ++ contents,
        some d, n + 1, out) := by
  refine ⟨[toString (n + 1), toString d, toString (parse_headers req), ua], ?_⟩
  rw [handle_ok_of root fs c0 n req m uri vv ua d hcs htok hua]
  simp [dispatch, hacc, hneg, hfs, response_200]

/-- Witness for C1 at a concrete empty file: `Content-Length: 0` and an
empty body. -/
theorem c1_witness :
    ∃ out, handle "/r" (fun p => if p = "/r/e.txt" then some "" else none) (some []) 0
        "GET /e.txt HTTP/1.1\nuser-agent: u\naccept: */*\n\r\n" =
      Except.ok ("HTTP/1.1 200 OK\nContent-Length: 0\n\n", some [], 1, out) :=
  c1_ok200_exact_content "/r" (fun p => if p = "/r/e.txt" then some "" else none)
    (some []) 0 "GET /e.txt HTTP/1.1\nuser-agent: u\naccept: */*\n\r\n"
    "GET" "/e.txt" "HTTP/1.1" "u" "*/*" "" [] rfl rfl rfl rfl rfl rfl

/-- **C2.** On every request that completes, the response is the bare `406`
status line iff the `Accept` header is absent or its value negotiates
neither by wildcard nor by extension-substring; when that condition holds
the outcome is independent of the filesystem (no lookup is observable);
and negotiation succeeds exactly when `Accept` is the literal `*/*` or the
extension occurs as a substring of the `Accept` value. -/
theorem c2_notAcceptable_iff :
    (∀ (root : String) (fs : String → Option String) (c0 : Option Dict) (n : Nat)
        (req m uri vv resp : String) (ck : Option Dict) (n' : Nat) (out : List String),
      startTokens req = [m, uri, vv] →
      handle root fs c0 n req = Except.ok (resp, ck, n', out) →
      (resp = resp406 ↔ ∀ acc, hlookup (parse_headers req) "accept" = some acc →
        is_content_type_negotiable acc (extOf (root ++ uri)) = false)) ∧
    (∀ (root : String) (fs fs' : String → Option String) (c0 : Option Dict) (n : Nat)
        (req m uri vv : String),
      startTokens req = [m, uri, vv] →
      (∀ acc, hlookup (parse_headers req) "accept" = some acc →
        is_content_type_negotiable acc (extOf (root ++ uri)) = false) →
      handle root fs c0 n req = handle root fs' c0 n req) ∧
    (∀ acc ext, is_content_type_negotiable acc ext = true ↔
      (acc = "*/*" ∨ ext.data <:+: acc.data)) := by
  refine ⟨?_, ?_, ?_⟩
  · intro root fs c0 n req m uri vv resp ck n' out htok h
    obtain ⟨d, m', uri', vv', ua, hcs, htok', hua, hresp, hck, hn'⟩ := handle_ok_cases h
    rw [htok] at htok'
    simp only [List.cons.injEq, and_true] at htok'
    obtain ⟨-, h2, -⟩ := htok'
    subst h2
    rw [hresp]
    exact dispatch_eq_resp406_iff _ _ _ _
  · intro root fs fs' c0 n req m uri vv htok hrej
    simp only [handle, htok]
    cases hcs : cookieStep (parse_headers req) c0 with
    | error f => rfl
    | ok d =>
      cases hua : hlookup (parse_headers req) "user-agent" with
      | none => rfl
      | some ua =>
        rw [(dispatch_eq_resp406_iff (parse_headers req) (extOf (root ++ uri)) fs
            (root ++ uri)).mpr hrej,
          (dispatch_eq_resp406_iff (parse_headers req) (extOf (root ++ uri)) fs'
            (root ++ uri)).mpr hrej]
  · intro acc ext
    simp only [is_content_type_negotiable, strContains, Bool.or_eq_true,
      decide_eq_true_eq, beq_iff_eq]
    exact or_comm

/-- Witness for C2 at a concrete request without an `Accept` header: the
response is the bare `406` line even though negotiation never ran. -/
theorem c2_witness :
    resp406 = resp406 ↔ ∀ acc,
      hlookup (parse_headers "GET /a HTTP/1.1\nuser-agent: u\n\r\n") "accept" = some acc →
      is_content_type_negotiable acc (extOf ("/r" ++ "/a")) = false :=
  c2_notAcceptable_iff.1 "/r" (fun _ => none) (some []) 0
    "GET /a HTTP/1.1\nuser-agent: u\n\r\n" "GET" "/a" "HTTP/1.1" resp406 (some []) 1
    ["1", "[]", "[(user-agent, u)]", "u"] rfl rfl

/-- **C3.** A request that passes negotiation but whose resolved path does
not exist gets exactly the bare `404 Not Found` status line, and every
completed request is answered by one of exactly three response shapes:
the `404` line, the `406` line, or a `200` response built from some file
contents. -/
theorem c3_notFound_and_three_shapes :
    (∀ (root : String) (fs : String → Option String) (c0 : Option Dict) (n : Nat)
        (req m uri vv ua acc : String) (d : Dict),
      startTokens req = [m, uri, vv] →
      cookieStep (parse_headers req) c0 = Except.ok d →
      hlookup (parse_headers req) "user-agent" = some ua →
      hlookup (parse_headers req) "accept" = some acc →
      is_content_type_negotiable acc (extOf (root ++ uri)) = true →
      fs (root ++ uri) = none →
      ∃ out, handle root fs c0 n req = Except.ok (resp404, some d, n + 1, out)) ∧
    (∀ (root : String) (fs : String → Option String) (c0 : Option Dict) (n : Nat)
        (req resp : String) (ck : Option Dict) (n' : Nat) (out : List String),
      handle root fs c0 n req = Except.ok (resp, ck, n', out) →
      resp = resp404 ∨ resp = resp406 ∨ ∃ c, resp = response_200 c) := by
  constructor
  · intro root fs c0 n req m uri vv ua acc d htok hcs hua hacc hneg hfs
    refine ⟨[toString (n + 1), toString d, toString (parse_headers req), ua], ?_⟩
    rw [handle_ok_of root fs c0 n req m uri vv ua d hcs htok hua]
    simp [dispatch, hacc, hneg, hfs]
  · intro root fs c0 n req resp ck n' out h
    obtain ⟨d, m, uri, vv, ua, hcs, htok, hua, hresp, hck, hn'⟩ := handle_ok_cases h
    rw [hresp]
    exact dispatch_cases _ _ _ _

/-- Witness for C3 at a concrete missing file. -/
theorem c3_witness :
    ∃ out, handle "/r" (fun _ => none) (some []) 0
        "GET /e.txt HTTP/1.1\nuser-agent: u\naccept: */*\n\r\n" =
      Except.ok (resp404, some [], 1, out) :=
  c3_notFound_and_three_shapes.1 "/r" (fun _ => none) (some []) 0
    "GET /e.txt HTTP/1.1\nuser-agent: u\naccept: */*\n\r\n"
    "GET" "/e.txt" "HTTP/1.1" "u" "*/*" [] rfl rfl rfl rfl rfl rfl

/-- **C4.** A request whose start line does not split into exactly three
whitespace tokens, or which lacks the unconditionally read `user-agent`
header, makes the iteration raise an unhandled fault instead of producing
any response. -/
theorem c4_malformed_request_faults (root : String) (fs : String → Option String)
    (c0 : Option Dict) (n : Nat) (req : String)
    (h : (startTokens req).length ≠ 3 ∨ hlookup (parse_headers req) "user-agent" = none) :
    ∃ f, handle root fs c0 n req = Except.error f := by
  simp only [handle]
  cases hcs : cookieStep (parse_headers req) c0 with
  | error f => exact ⟨f, rfl⟩
  | ok d =>
    rcases htok : startTokens req with _ | ⟨a, _ | ⟨b, _ | ⟨c, _ | ⟨e, rest⟩⟩⟩⟩
    · exact ⟨Fault.valueErrorStartLine, rfl⟩
    · exact ⟨Fault.valueErrorStartLine, rfl⟩
    · exact ⟨Fault.valueErrorStartLine, rfl⟩
    · rcases h with hlen | hua
      · rw [htok] at hlen
        simp at hlen
      · exact ⟨Fault.keyErrorUserAgent, by rw [hua]⟩
    · exact ⟨Fault.valueErrorStartLine, rfl⟩

/-- Witness for C4 at a concrete two-token start line. -/
theorem c4_witness :
    ∃ f, handle "/r" (fun _ => none) (some []) 0 "GET /x\nuser-agent: u\n\r\n" =
      Except.error f :=
  c4_malformed_request_faults "/r" (fun _ => none) (some []) 0
    "GET /x\nuser-agent: u\n\r\n" (Or.inl (by decide))

/-- Counterexample to C5 as stated: for the cookie header value `a=b=c`
the source maps `a` to `b` (the piece between the first and second `=`),
not to the raw remainder `b=c` that the claim describes. -/
theorem c5_counterexample :
    parseCookies "a=b=c" = Except.ok [("a", "b")] ∧
    parseCookiesClaimed "a=b=c" = [("a", "b=c")] ∧
    ([("a", "b")] : Dict) ≠ [("a", "b=c")] :=
  ⟨rfl, rfl, by decide⟩

/-- **C5 (amended).** For every request carrying a cookie header, the
cookies mapping is built by splitting the header value on `;` and then
splitting each entry on every `=`, mapping the part before the first `=`
to the part between the first and second `=` (the second split component,
not the whole remainder); an entry with no `=` raises `IndexError`. -/
theorem c5_amended_cookie_mapping :
    (∀ (root : String) (fs : String → Option String) (c0 : Option Dict) (n : Nat)
        (req cv resp : String) (ck : Option Dict) (n' : Nat) (out : List String),
      hlookup (parse_headers req) "cookie" = some cv →
      handle root fs c0 n req = Except.ok (resp, ck, n', out) →
      ∃ d, parseCookies cv = Except.ok d ∧ ck = some d) ∧
    parseCookies "a=b=c;d=e" = Except.ok [("a", "b"), ("d", "e")] ∧
    parseCookies "nameonly" = Except.error Fault.cookieIndexError := by
  refine ⟨?_, rfl, rfl⟩
  intro root fs c0 n req cv resp ck n' out hck h
  obtain ⟨d, m, uri, vv, ua, hcs, htok, hua, hresp, hckEq, hn'⟩ := handle_ok_cases h
  refine ⟨d, ?_, hckEq⟩
  unfold cookieStep at hcs
  rw [hck] at hcs
  exact hcs

/-- Witness for the amended C5 at a concrete request whose cookie value
contains a second `=`. -/
theorem c5_witness :
    ∃ d, parseCookies "a=b=c" = Except.ok d ∧ (some [("a", "b")] : Option Dict) = some d :=
  c5_amended_cookie_mapping.1 "/r" (fun _ => none) (some []) 0
    "GET /a.txt HTTP/1.1\nuser-agent: u\naccept: */*\ncookie: a=b=c\n\r\n"
    "a=b=c" resp404 (some [("a", "b")]) 1
    ["1", "[(a, b)]", "[(user-agent, u), (accept, */*), (cookie, a=b=c)]", "u"]
    rfl rfl

/-- **C6.** Header parsing splits each header line on the first colon,
lower-cases the key and trims surrounding whitespace from the value; the
spec's example input parses to exactly `{host ↦ x, accept ↦ text/plain}`;
on duplicate header names the last occurrence wins; and lines after the
line consisting solely of a carriage return are not parsed as headers. -/
theorem c6_parse_headers_examples :
    parse_headers "GET /a.txt HTTP/1.1\r\nHost: x\r\nAccept: text/plain\r\n\r\n" =
      [("host", "x"), ("accept", "text/plain")] ∧
    parse_headers "GET / HTTP/1.1\r\nX-Tag: a\r\nX-Tag: b\r\n\r\n" = [("x-tag", "b")] ∧
    parse_headers "GET / HTTP/1.1\r\nA: 1\r\n\r\nB: 2\r\n" = [("a", "1")] ∧
    parse_headers "GET / HTTP/1.1\r\nHoSt:   x \r\n\r\n" = [("host", "x")] :=
  ⟨rfl, rfl, rfl, rfl⟩

/-- **C7.** The resolved filesystem path is the literal string
concatenation of the document root and the target URI: the response
depends on the filesystem only through its value at `root ++ uri`, and a
target containing `..` is not rejected — a concrete traversal target is
served with `200`. -/
theorem c7_path_literal_concat :
    (∀ (root : String) (fs fs' : String → Option String) (c0 : Option Dict) (n : Nat)
        (req m uri vv : String),
      startTokens req = [m, uri, vv] →
      fs (root ++ uri) = fs' (root ++ uri) →
      handle root fs c0 n req = handle root fs' c0 n req) ∧
    (strContains "/../s.txt" ".." = true ∧
      handle "/var/www" (fun p => if p = "/var/www/../s.txt" then some "SECRET" else none)
        (some []) 0 "GET /../s.txt HTTP/1.1\nuser-agent: curl\naccept: */*\n\r\n" =
      Except.ok ("HTTP/1.1 200 OK\nContent-Length: 6\n\nSECRET", some [], 1,
        ["1", "[]", "[(user-agent, curl), (accept, */*)]", "curl"])) := by
  constructor
  · intro root fs fs' c0 n req m uri vv htok hfs
    simp only [handle, htok]
    cases hcs : cookieStep (parse_headers req) c0 with
    | error f => rfl
    | ok d =>
      cases hua : hlookup (parse_headers req) "user-agent" with
      | none => rfl
      | some ua =>
        rw [dispatch_congr_fs (parse_headers req) (extOf (root ++ uri)) fs fs'
          (root ++ uri) hfs]
  · exact ⟨rfl, rfl⟩

/-- Witness for C7: two filesystems that agree at the one resolved path
produce identical iterations. -/
theorem c7_witness :
    handle "/r" (fun p => if p = "/r/b" then some "Y" else none) (some []) 0
      "GET /a HTTP/1.1\nuser-agent: u\naccept: */*\n\r\n" =
    handle "/r" (fun _ => none) (some []) 0
      "GET /a HTTP/1.1\nuser-agent: u\naccept: */*\n\r\n" :=
  c7_path_literal_concat.1 "/r" (fun p => if p = "/r/b" then some "Y" else none)
    (fun _ => none) (some []) 0 "GET /a HTTP/1.1\nuser-agent: u\naccept: */*\n\r\n"
    "GET" "/a" "HTTP/1.1" rfl rfl

/-- **C8.** A request without a cookie header constructs no cookie
mapping (the previous value, if any, is simply kept), and on a process
whose `cookies` variable was never assigned the unconditional
`print cookies` is an unhandled `NameError` raised before any response. -/
theorem c8_unconditional_cookie_read :
    (∀ (root : String) (fs : String → Option String) (n : Nat) (req : String),
      hlookup (parse_headers req) "cookie" = none →
      handle root fs none n req = Except.error Fault.nameErrorCookies) ∧
    (∀ (hdrs : Dict) (d : Dict), hlookup hdrs "cookie" = none →
      cookieStep hdrs (some d) = Except.ok d) := by
  constructor
  · intro root fs n req hck
    simp only [handle, cookieStep, hck]
  · intro hdrs d hck
    simp only [cookieStep, hck]

/-- Witness for C8 at a concrete cookie-less request on a fresh process. -/
theorem c8_witness :
    handle "/r" (fun _ => none) none 0 "GET / HTTP/1.1\nuser-agent: u\n\r\n" =
      Except.error Fault.nameErrorCookies :=
  c8_unconditional_cookie_read.1 "/r" (fun _ => none) 0
    "GET / HTTP/1.1\nuser-agent: u\n\r\n" rfl

/-- **C9.** Handling is deterministic and idempotent with respect to the
filesystem: a successfully handled request, re-issued against an unchanged
filesystem, yields a byte-identical response (and the same cookie state),
and the request counter influences only the diagnostic output, never the
response. -/
theorem c9_idempotent_and_counter_free :
    (∀ (root : String) (fs : String → Option String) (c0 : Option Dict) (n : Nat)
        (req resp : String) (ck : Option Dict) (n' : Nat) (out : List String),
      handle root fs c0 n req = Except.ok (resp, ck, n', out) →
      ∃ out', handle root fs ck n' req = Except.ok (resp, ck, n' + 1, out')) ∧
    (∀ (root : String) (fs : String → Option String) (c0 : Option Dict)
        (n₁ n₂ : Nat) (req : String),
      respOf (handle root fs c0 n₁ req) = respOf (handle root fs c0 n₂ req)) := by
  constructor
  · intro root fs c0 n req resp ck n' out h
    obtain ⟨d, m, uri, vv, ua, hcs, htok, hua, hresp, hck, hn'⟩ := handle_ok_cases h
    subst hck hn' hresp
    exact ⟨_, handle_ok_of root fs (some d) (n + 1) req m uri vv ua d
      (cookieStep_idem _ _ _ hcs) htok hua⟩
  · intro root fs c0 n₁ n₂ req
    simp only [handle]
    cases hcs : cookieStep (parse_headers req) c0 with
    | error f => rfl
    | ok d =>
      rcases htok : startTokens req with _ | ⟨a, _ | ⟨b, _ | ⟨c, _ | ⟨e, rest⟩⟩⟩⟩
      · rfl
      · rfl
      · rfl
      · cases hua : hlookup (parse_headers req) "user-agent" with
        | none => rfl
        | some ua => rfl
      · rfl

/-- Witness for C9: re-issuing a concrete request against the unchanged
file yields the same `200` response. -/
theorem c9_witness :
    ∃ out', handle "/r" (fun p => if p = "/r/e.txt" then some "hi" else none) (some []) 1
        "GET /e.txt HTTP/1.1\nuser-agent: u\naccept: */*\n\r\n" =
      Except.ok ("HTTP/1.1 200 OK\nContent-Length: 2\n\nhi", some [], 2, out') :=
  c9_idempotent_and_counter_free.1 "/r"
    (fun p => if p = "/r/e.txt" then some "hi" else none) (some []) 0
    "GET /e.txt HTTP/1.1\nuser-agent: u\naccept: */*\n\r\n"
    "HTTP/1.1 200 OK\nContent-Length: 2\n\nhi" (some []) 1
    ["1", "[]", "[(user-agent, u), (accept, */*)]", "u"] rfl

/-- **C10.** A resolved path without a file extension yields the empty
extension string, which negotiates with every present `Accept` value
(the empty string is a substring of everything), so such a request can
never be answered `406` when an `Accept` header is present. -/
theorem c10_empty_extension_always_negotiates :
    (∀ acc, is_content_type_negotiable acc "" = true) ∧
    (∀ (root : String) (fs : String → Option String) (c0 : Option Dict) (n : Nat)
        (req m uri vv acc resp : String) (ck : Option Dict) (n' : Nat) (out : List String),
      startTokens req = [m, uri, vv] →
      (splitext (root ++ uri)).2 = "" →
      hlookup (parse_headers req) "accept" = some acc →
      handle root fs c0 n req = Except.ok (resp, ck, n', out) →
      resp ≠ resp406) := by
  have hneg : ∀ acc, is_content_type_negotiable acc "" = true := by
    intro acc
    have hinf : ("" : String).data <:+: acc.data := ⟨[], acc.data, by simp⟩
    simp [is_content_type_negotiable, strContains, hinf]
  constructor
  · exact hneg
  · intro root fs c0 n req m uri vv acc resp ck n' out htok hext hacc h hr406
    obtain ⟨d, m', uri', vv', ua, hcs, htok', hua, hresp, hck, hn'⟩ := handle_ok_cases h
    rw [htok] at htok'
    simp only [List.cons.injEq, and_true] at htok'
    obtain ⟨-, h2, -⟩ := htok'
    subst h2
    rw [hresp] at hr406
    have hfalse := (dispatch_eq_resp406_iff _ _ _ _).mp hr406 acc hacc
    rw [extOf, hext, show ("" : String).drop 1 = "" from rfl, hneg acc] at hfalse
    exact absurd hfalse (by simp)

/-- Witness for C10 at a concrete extension-less target with a
non-wildcard `Accept`: the missing file gives `404`, not `406`. -/
theorem c10_witness : resp404 ≠ resp406 :=
  c10_empty_extension_always_negotiates.2 "/r" (fun _ => none) (some []) 0
    "GET /nofile HTTP/1.1\nuser-agent: u\naccept: application/json\n\r\n"
    "GET" "/nofile" "HTTP/1.1" "application/json" resp404 (some []) 1
    ["1", "[]", "[(user-agent, u), (accept, application/json)]", "u"]
    rfl rfl rfl rfl

end NewWeb
